import Mathlib

/-!
Verification of the room-summary-card widget (src/card.ts).

The card holds a small View Model (merged configuration, room entity,
icon-entity list, problem entities, problem flag) and updates it with
deep-equality gating on every host state push.  Helper lookups
(`getState`, `getIconEntities`, `getRoomEntity`, `getProblemEntities`)
and the configuration/entity types live in companion modules that are
not part of this tree; they are modelled from the specification and
marked as such in their doc comments.  Everything in `card.ts` itself is
translated directly.
-/

namespace RoomSummaryCard

/-- A live entity state, as exposed by the host snapshot
(`hass.states[id]`).  Only the `state` string is consumed by the card. -/
structure LiveState where
  state : String
  deriving Repr, DecidableEq

/-- Modelled from the spec: an entity-registry record — its area binding,
its device binding, and a "problem" classification flag (the spec speaks
of entities carrying a problem classification, e.g. a binary-sensor-like
entity in a problem domain). -/
structure EntityEntry where
  area_id : Option String := none
  device_id : Option String := none
  problemFlag : Bool := false
  deriving Repr, DecidableEq

/-- Modelled from the spec: a device-registry record with its area binding. -/
structure DeviceEntry where
  area_id : Option String := none
  deriving Repr, DecidableEq

/-- The read-only host snapshot: live-state-by-id plus entity and device
registries, each a finite id-keyed map modelled as an association list. -/
structure HomeAssistant where
  states : List (String × LiveState) := []
  entities : List (String × EntityEntry) := []
  devices : List (String × DeviceEntry) := []
  deriving Repr, DecidableEq

/-- The raw configuration object handed to `setConfig`: required `area`,
optional `label`, temperature `unit`, sensor-id overrides, and the list of
entities configured for icon display (configuration order is meaningful).
The field types follow the spec's inbound-configuration contract; absent
optional keys are `none`. -/
structure Config where
  area : String
  label : Option String := none
  unit : Option String := none
  temperature_sensor : Option String := none
  humidity_sensor : Option String := none
  entities : List String := []
  deriving Repr, DecidableEq

/-- The merged configuration held by the card: the two sensor ids have been
defaulted from `area`, so they are always present. -/
structure MergedConfig where
  area : String
  label : Option String := none
  unit : Option String := none
  temperature_sensor : String
  humidity_sensor : String
  entities : List String := []
  deriving Repr, DecidableEq

/-- Modelled from the spec: the display-oriented projection of one entity —
identifier and current state value (absent when the entity has no live
state). -/
structure EntityInformation where
  entity_id : String
  state : Option String := none
  deriving Repr, DecidableEq

/-- Modelled from the spec: `getState(id) -> LiveState | undefined` — a
plain lookup in the snapshot's live-state map; absence is a valid
non-error outcome. -/
def getState (hass : HomeAssistant) (id : String) : Option LiveState :=
  (hass.states.find? (fun p => p.1 == id)).map Prod.snd

/-- Modelled from the spec: `getIconEntities` produces one
`EntityInformation` per entity configured for icon display, in
configuration order; a missing entity degrades to an absent state value. -/
def getIconEntities (hass : HomeAssistant) (config : MergedConfig) :
    List EntityInformation :=
  config.entities.map fun id =>
    { entity_id := id, state := (getState hass id).map LiveState.state }

/-- Modelled from the spec: `getRoomEntity` resolves the area's primary
entity.  The exact id scheme is unspecified by the spec; it is modelled as
a deterministic function of the area. -/
def getRoomEntity (hass : HomeAssistant) (config : MergedConfig) :
    EntityInformation :=
  let id := "light." ++ config.area
  { entity_id := id, state := (getState hass id).map LiveState.state }

/-- Modelled from the spec: whether a registry entity is bound to the area,
directly or via its device's area membership. -/
def boundToArea (hass : HomeAssistant) (area : String) (e : EntityEntry) :
    Bool :=
  e.area_id == some area ||
    (match e.device_id with
     | some d =>
         (hass.devices.find? (fun p => p.1 == d)).map
           (fun p => p.2.area_id) == some (some area)
     | none => false)

/-- Modelled from the spec: `getProblemEntities` scans entities bound to
the area for a problem classification and returns their ids together with
`problemExists`, true iff at least one of them has an active ("on") live
state. -/
def getProblemEntities (hass : HomeAssistant) (area : String) :
    List String × Bool :=
  let problemEntities :=
    (hass.entities.filter
      (fun p => p.2.problemFlag && boundToArea hass area p.2)).map Prod.fst
  let problemExists :=
    problemEntities.any fun id =>
      (getState hass id).map LiveState.state == some "on"
  (problemEntities, problemExists)

/-- The card's mutable fields.  `none` models a field that has never been
assigned (the TypeScript fields are declared with a definite-assignment
assertion and start `undefined`); `_problemEntities` and `_problemExists`
have initializers in the source. -/
structure CardState where
  _config : Option MergedConfig := none
  _states : Option (List EntityInformation) := none
  _roomEntity : Option EntityInformation := none
  _problemEntities : List String := []
  _problemExists : Bool := false
  _hass : Option HomeAssistant := none
  deriving Repr, DecidableEq

/-- Which reactive (`@state`) fields requested a re-render during one call:
Lit requests an update for an assigned reactive field when the new value
differs from the old one by `!==`; a gated field that is never assigned
requests nothing. -/
structure Triggers where
  config : Bool := false
  states : Bool := false
  roomEntity : Bool := false
  problemEntities : Bool := false
  problemExists : Bool := false
  deriving Repr, DecidableEq

/-- The `setConfig` merging step: object-spread of the user config over the two
derived sensor-id defaults (`sensor.<area>_climate_humidity`,
`sensor.<area>_climate_air_temperature`), so an explicit override wins. -/
def mergeConfig (config : Config) : MergedConfig :=
  { area := config.area
    label := config.label
    unit := config.unit
    temperature_sensor :=
      config.temperature_sensor.getD
        ("sensor." ++ config.area ++ "_climate_air_temperature")
    humidity_sensor :=
      config.humidity_sensor.getD
        ("sensor." ++ config.area ++ "_climate_humidity")
    entities := config.entities }

/-- The `setConfig` method: the merged config replaces the held one only when they are
not deeply equal (`fast-deep-equal`); the returned flag is the re-render
request (assignment of a fresh object is always `!==` the old value). -/
def setConfig (config : Config) (s : CardState) : CardState × Bool :=
  let cardConfig := mergeConfig config
  if some cardConfig = s._config then (s, false)
  else ({ s with _config := some cardConfig }, true)

/-- The `hass` setter.  `this._hass = hass` happens first; then the derived
values are recomputed and each gated field is replaced only when not
deeply equal to the held one.  `_problemExists` is assigned
unconditionally (a Bool, so Lit's `!==` gate decides its trigger).  When
no configuration has been set, `this._config.area` is a property access on
`undefined` and the setter throws: the error value carries the state at
the throw point (only `_hass` updated). -/
def setHass (hass : HomeAssistant) (s : CardState) :
    Except CardState (CardState × Triggers) :=
  let s0 := { s with _hass := some hass }
  match s._config with
  | none => .error s0
  | some config =>
    let states := getIconEntities hass config
    let roomEntity := getRoomEntity hass config
    let pe := getProblemEntities hass config.area
    let problemEntities := pe.1
    let problemExists := pe.2
    let tPE := s0._problemExists ≠ problemExists
    let s1 := { s0 with _problemExists := problemExists }
    let (s2, tRoom) :=
      if some roomEntity = s1._roomEntity then (s1, false)
      else ({ s1 with _roomEntity := some roomEntity }, true)
    let (s3, tStates) :=
      if some states = s2._states then (s2, false)
      else ({ s2 with _states := some states }, true)
    let (s4, tProblems) :=
      if problemEntities = s3._problemEntities then (s3, false)
      else ({ s3 with _problemEntities := problemEntities }, true)
    .ok (s4,
      { config := false
        states := tStates
        roomEntity := tRoom
        problemEntities := tProblems
        problemExists := tPE })

/-- JavaScript template-literal interpolation of a possibly-`undefined`
string: `undefined` renders as the literal text "undefined". -/
def jsInterp (x : Option String) : String := x.getD "undefined"

/-- JavaScript `String.prototype.toUpperCase`, modelled character-wise. -/
def strToUpper (s : String) : String :=
  String.mk (s.data.map Char.toUpper)

/-- JavaScript `x || d` for an optional string: absent and empty strings
are falsy. -/
def jsOr (x : Option String) (d : String) : String :=
  match x with
  | some v => if v = "" then d else v
  | none => d

/-- The `_getLabel` method: returns "" when `_hass` is unset or the area is falsy;
otherwise interpolates the two sensor states (possibly `undefined`) and
the upper-cased unit.  Accessing `this._config.area` with `_config` unset
throws. -/
def _getLabel (s : CardState) : Except Unit String :=
  match s._hass with
  | none => .ok ""
  | some hass =>
    match s._config with
    | none => .error ()
    | some config =>
      if config.area = "" then .ok ""
      else
        let sensorTemp :=
          jsInterp ((getState hass config.temperature_sensor).map
            LiveState.state)
        let humidity :=
          jsInterp ((getState hass config.humidity_sensor).map
            LiveState.state)
        let unit := strToUpper (jsOr config.unit "C")
        .ok s!"{sensorTemp}°{unit} - {humidity}%"

/-- JavaScript `str.split(sep)` for a one-character separator, modelled on
the character list: splitting the empty string gives one empty word, and
adjacent separators give empty words between them. -/
def jsSplit (sep : Char) : List Char → List (List Char)
  | [] => [[]]
  | c :: cs =>
    match jsSplit sep cs with
    | [] => [[]]
    | w :: ws => if c = sep then [] :: w :: ws else (c :: w) :: ws

/-- One word of `_formatAreaName`: `w.charAt(0).toUpperCase() + w.slice(1)`
(the empty word maps to itself). -/
def capitalizeWord (w : List Char) : List Char :=
  match w with
  | [] => []
  | c :: cs => Char.toUpper c :: cs

/-- The `_formatAreaName` method: split the area id on '_', capitalize each word's
first character, join with single spaces. -/
def _formatAreaName (config : MergedConfig) : String :=
  String.mk (List.intercalate [' ']
    ((jsSplit '_' config.area.data).map capitalizeWord))

/-- The rendered room name: `this._config.label` if truthy (a set,
non-empty label), otherwise the formatted area name. -/
def areaNameOf (config : MergedConfig) : String :=
  match config.label with
  | some l => if l = "" then _formatAreaName config else l
  | none => _formatAreaName config

/-- The `_getAreaStatistics` method: counts of devices in the area and of entities
bound to it directly or through those devices. -/
def _getAreaStatistics (hass : HomeAssistant) (config : MergedConfig) :
    String :=
  if config.area = "" then ""
  else
    let devices :=
      (hass.devices.filter
        (fun p => p.2.area_id == some config.area)).map Prod.fst
    let entities :=
      (hass.entities.filter fun p =>
        p.2.area_id == some config.area ||
          (match p.2.device_id with
           | some d => devices.contains d
           | none => false)).map Prod.fst
    toString devices.length ++ " devices " ++
      toString entities.length ++ " entities"

/-- The problem badge: icon name carrying the problem count and a
background communicating whether an active problem exists. -/
structure ProblemBadge where
  icon : String
  cssClass : String
  background : String
  deriving Repr, DecidableEq

/-- The `_renderProblemIndicator` method: `nothing` when the problem list is empty;
otherwise an `ha-icon` whose icon is `mdi:numeric-<count>` and whose
background is the strong red when `_problemExists` and the weaker green
otherwise. -/
def _renderProblemIndicator (s : CardState) : Option ProblemBadge :=
  if s._problemEntities.length = 0 then none
  else
    let n := s._problemEntities.length
    some
      { icon := s!"mdi:numeric-{n}"
        cssClass := "status-entities"
        background :=
          if s._problemExists then "rgba(var(--color-red), 0.8)"
          else "rgba(var(--color-green), 0.6)" }

/-- One state-icon cell of the grid: the entity it shows and its CSS
classes (positional `entity-<i>` classes are 1-based). -/
structure IconCell where
  entity : EntityInformation
  classes : List String
  deriving Repr, DecidableEq

/-- The per-entity icon row of `render`:
`this._states.map((s, i) => createStateIcon(..., ['entity', 'entity-'+(i+1)]))`. -/
def renderStateIcons (states : List EntityInformation) : List IconCell :=
  states.enum.map fun p =>
    { entity := p.2, classes := ["entity", s!"entity-{p.1 + 1}"] }

/-- The renderable output assembled by `render`. -/
structure RenderOutput where
  areaName : String
  label : String
  stats : String
  roomIcon : IconCell
  icons : List IconCell
  problemBadge : Option ProblemBadge
  deriving Repr, DecidableEq

/-- The `render` method: an empty output (`none`) when `_states` was never assigned;
otherwise the grid with room name, climate label, statistics, the room
icon, the per-entity icons in list order, and the conditional problem
badge.  The remaining fields it dereferences are present whenever
`_states` is (they are assigned together by the `hass` setter). -/
def render (s : CardState) : Option RenderOutput :=
  match s._states, s._roomEntity, s._hass, s._config with
  | some sts, some re, some hass, some config =>
    some
      { areaName := areaNameOf config
        label :=
          match _getLabel s with
          | .ok l => l
          | .error _ => ""
        stats := _getAreaStatistics hass config
        roomIcon := { entity := re, classes := ["room"] }
        icons := renderStateIcons sts
        problemBadge := _renderProblemIndicator s }
  | _, _, _, _ => none

/-! Concrete fixtures used by the witnesses and counterexamples. -/

/-- The merged configuration obtained from `setConfig({area: "kitchen"})`. -/
def kitchenConfig : MergedConfig := mergeConfig { area := "kitchen" }

/-- A snapshot in which both kitchen climate sensors have live states. -/
def kitchenSnapshot : HomeAssistant :=
  { states := [("sensor.kitchen_climate_air_temperature", ⟨"21.5"⟩),
               ("sensor.kitchen_climate_humidity", ⟨"40"⟩)] }

/-- The same snapshot with the temperature sensor's live state missing. -/
def kitchenSnapshotNoTemp : HomeAssistant :=
  { states := [("sensor.kitchen_climate_humidity", ⟨"40"⟩)] }

/-- The same snapshot with the humidity sensor's live state missing. -/
def kitchenSnapshotNoHum : HomeAssistant :=
  { states := [("sensor.kitchen_climate_air_temperature", ⟨"21.5"⟩)] }

/-- A configured card that has not yet received a state push. -/
def kitchenCard : CardState := { _config := some kitchenConfig }

/-- A freshly constructed card: nothing set beyond the field initializers. -/
def freshCard : CardState := {}

/-- A renderable card with two configured icon entities. -/
def twoIconCard : CardState :=
  { _config := some (mergeConfig { area := "kitchen", entities := ["a", "b"] })
    _states := some [{ entity_id := "a" }, { entity_id := "b" }]
    _roomEntity := some { entity_id := "light.kitchen" }
    _hass := some {} }

/-- A renderable living-room card whose `label` is the empty string. -/
def livingCardEmptyLabel : CardState :=
  { _config := some (mergeConfig { area := "living_room", label := some "" })
    _states := some []
    _roomEntity := some { entity_id := "light.living_room" }
    _hass := some {} }

/-- A renderable living-room card with no `label` configured. -/
def livingCard : CardState :=
  { _config := some (mergeConfig { area := "living_room" })
    _states := some []
    _roomEntity := some { entity_id := "light.living_room" }
    _hass := some {} }

/-! Theorems. -/

/-- Exact characterization of a successful `hass` push: `_hass` is stored,
every derived field ends up holding the freshly derived value, and each
reactive field's re-render request is exactly the deep-equality test
against the previously stored value. -/
theorem setHass_ok (hass : HomeAssistant) (s : CardState) (c : MergedConfig)
    (h : s._config = some c) :
    setHass hass s = .ok
      ({ s with
          _hass := some hass
          _problemExists := (getProblemEntities hass c.area).2
          _roomEntity := some (getRoomEntity hass c)
          _states := some (getIconEntities hass c)
          _problemEntities := (getProblemEntities hass c.area).1 },
       { config := false
         states := decide (¬ some (getIconEntities hass c) = s._states)
         roomEntity := decide (¬ some (getRoomEntity hass c) = s._roomEntity)
         problemEntities :=
           decide (¬ (getProblemEntities hass c.area).1 = s._problemEntities)
         problemExists :=
           decide (¬ s._problemExists = (getProblemEntities hass c.area).2) }) := by
  obtain ⟨cfg, st, re, pe, pex, hs⟩ := s
  simp only [CardState.mk.injEq] at h ⊢
  subst h
  by_cases h1 : some (getRoomEntity hass c) = re <;>
    by_cases h2 : some (getIconEntities hass c) = st <;>
      by_cases h3 : (getProblemEntities hass c.area).1 = pe <;>
        simp_all [setHass]

/-- Exact characterization of `setConfig`: the held config is replaced by
the merged config iff they differ, and the re-render request is exactly
that difference. -/
theorem setConfig_spec (config : Config) (s : CardState) :
    setConfig config s =
      (if some (mergeConfig config) = s._config then s
       else { s with _config := some (mergeConfig config) },
       decide (¬ some (mergeConfig config) = s._config)) := by
  unfold setConfig
  by_cases h : some (mergeConfig config) = s._config <;> simp [h]

/-- C1: on every state push with a configuration held, the setter
succeeds, the merged configuration is left untouched with no render
trigger, each of the other held fields ends up holding the freshly
derived value, is left untouched when that value is deeply equal to the
stored one, and its render trigger fires exactly when the derived value
is not deeply equal to the stored one. -/
theorem hass_update_equality_gated (hass : HomeAssistant) (s : CardState)
    (c : MergedConfig) (h : s._config = some c) :
    ∃ s' t, setHass hass s = .ok (s', t) ∧
      s'._config = s._config ∧ t.config = false ∧
      s'._roomEntity = some (getRoomEntity hass c) ∧
      (t.roomEntity = true ↔ some (getRoomEntity hass c) ≠ s._roomEntity) ∧
      (some (getRoomEntity hass c) = s._roomEntity →
        s'._roomEntity = s._roomEntity) ∧
      s'._states = some (getIconEntities hass c) ∧
      (t.states = true ↔ some (getIconEntities hass c) ≠ s._states) ∧
      (some (getIconEntities hass c) = s._states → s'._states = s._states) ∧
      s'._problemEntities = (getProblemEntities hass c.area).1 ∧
      (t.problemEntities = true ↔
        (getProblemEntities hass c.area).1 ≠ s._problemEntities) ∧
      ((getProblemEntities hass c.area).1 = s._problemEntities →
        s'._problemEntities = s._problemEntities) ∧
      s'._problemExists = (getProblemEntities hass c.area).2 ∧
      (t.problemExists = true ↔
        (getProblemEntities hass c.area).2 ≠ s._problemExists) := by
  refine ⟨_, _, setHass_ok hass s c h, ?_⟩
  simp [ne_comm]

/-- Witness for C1 at a concrete configured card and snapshot. -/
theorem hass_update_equality_gated_witness :
    ∃ s' t, setHass kitchenSnapshot kitchenCard = .ok (s', t) ∧
      s'._config = kitchenCard._config ∧ t.config = false ∧
      s'._roomEntity = some (getRoomEntity kitchenSnapshot kitchenConfig) ∧
      (t.roomEntity = true ↔ some (getRoomEntity kitchenSnapshot kitchenConfig) ≠
        kitchenCard._roomEntity) ∧
      (some (getRoomEntity kitchenSnapshot kitchenConfig) = kitchenCard._roomEntity →
        s'._roomEntity = kitchenCard._roomEntity) ∧
      s'._states = some (getIconEntities kitchenSnapshot kitchenConfig) ∧
      (t.states = true ↔ some (getIconEntities kitchenSnapshot kitchenConfig) ≠
        kitchenCard._states) ∧
      (some (getIconEntities kitchenSnapshot kitchenConfig) = kitchenCard._states →
        s'._states = kitchenCard._states) ∧
      s'._problemEntities = (getProblemEntities kitchenSnapshot kitchenConfig.area).1 ∧
      (t.problemEntities = true ↔
        (getProblemEntities kitchenSnapshot kitchenConfig.area).1 ≠
          kitchenCard._problemEntities) ∧
      ((getProblemEntities kitchenSnapshot kitchenConfig.area).1 =
          kitchenCard._problemEntities →
        s'._problemEntities = kitchenCard._problemEntities) ∧
      s'._problemExists = (getProblemEntities kitchenSnapshot kitchenConfig.area).2 ∧
      (t.problemExists = true ↔
        (getProblemEntities kitchenSnapshot kitchenConfig.area).2 ≠
          kitchenCard._problemExists) :=
  hass_update_equality_gated kitchenSnapshot kitchenCard kitchenConfig rfl

/-- C2 (code bug): a state push arriving before any configuration throws —
`this._config.area` is a property access on `undefined` — so the setter
does not complete; only `_hass` has been stored at the throw point. -/
theorem hass_update_unconfigured_throws (hass : HomeAssistant) (s : CardState)
    (h : s._config = none) :
    setHass hass s = .error { s with _hass := some hass } := by
  obtain ⟨cfg, st, re, pe, pex, hs⟩ := s
  simp only [CardState.mk.injEq] at h
  subst h
  rfl

/-- Witness for C2: a fresh card receiving its first state push. -/
theorem hass_update_unconfigured_throws_witness :
    setHass kitchenSnapshot freshCard =
      .error { freshCard with _hass := some kitchenSnapshot } :=
  hass_update_unconfigured_throws kitchenSnapshot freshCard rfl

/-- C3: pushing the identical snapshot twice is idempotent — the second
call leaves every View Model field unchanged and requests no re-render. -/
theorem hass_update_idempotent (hass : HomeAssistant) (s s₁ : CardState)
    (t₁ : Triggers) (c : MergedConfig) (h : s._config = some c)
    (h1 : setHass hass s = .ok (s₁, t₁)) :
    setHass hass s₁ = .ok (s₁, ⟨false, false, false, false, false⟩) := by
  obtain ⟨cfg, st, re, pe, pex, hs⟩ := s
  simp only [CardState.mk.injEq] at h
  subst h
  rw [setHass_ok hass _ c rfl] at h1
  have h2 : s₁ = _ := (congrArg Prod.fst (Except.ok.inj h1)).symm
  subst h2
  rw [setHass_ok hass _ c rfl]
  simp

/-- Witness for C3 at a concrete configured card and snapshot. -/
theorem hass_update_idempotent_witness :
    setHass kitchenSnapshot
      { kitchenCard with
          _hass := some kitchenSnapshot
          _problemExists := (getProblemEntities kitchenSnapshot kitchenConfig.area).2
          _roomEntity := some (getRoomEntity kitchenSnapshot kitchenConfig)
          _states := some (getIconEntities kitchenSnapshot kitchenConfig)
          _problemEntities := (getProblemEntities kitchenSnapshot kitchenConfig.area).1 } =
      .ok ({ kitchenCard with
          _hass := some kitchenSnapshot
          _problemExists := (getProblemEntities kitchenSnapshot kitchenConfig.area).2
          _roomEntity := some (getRoomEntity kitchenSnapshot kitchenConfig)
          _states := some (getIconEntities kitchenSnapshot kitchenConfig)
          _problemEntities := (getProblemEntities kitchenSnapshot kitchenConfig.area).1 },
        ⟨false, false, false, false, false⟩) :=
  hass_update_idempotent kitchenSnapshot kitchenCard _ _ kitchenConfig rfl
    (setHass_ok kitchenSnapshot kitchenCard kitchenConfig rfl)

/-- C5: `setConfig` always stores the merged configuration; for
`{area: "kitchen"}` the merged sensor ids are the two kitchen defaults;
in general each sensor id defaults to the area-derived id when not
supplied and an explicit override wins. -/
theorem setConfig_sensor_defaults :
    (∀ s : CardState, (setConfig { area := "kitchen" } s).1._config =
      some (mergeConfig { area := "kitchen" })) ∧
    (mergeConfig { area := "kitchen" }).temperature_sensor =
      "sensor.kitchen_climate_air_temperature" ∧
    (mergeConfig { area := "kitchen" }).humidity_sensor =
      "sensor.kitchen_climate_humidity" ∧
    (∀ config : Config, config.temperature_sensor = none →
      (mergeConfig config).temperature_sensor =
        "sensor." ++ config.area ++ "_climate_air_temperature") ∧
    (∀ config : Config, config.humidity_sensor = none →
      (mergeConfig config).humidity_sensor =
        "sensor." ++ config.area ++ "_climate_humidity") ∧
    (∀ (config : Config) (id : String), config.temperature_sensor = some id →
      (mergeConfig config).temperature_sensor = id) ∧
    (∀ (config : Config) (id : String), config.humidity_sensor = some id →
      (mergeConfig config).humidity_sensor = id) := by
  refine ⟨?_, rfl, rfl, ?_, ?_, ?_, ?_⟩
  · intro s
    rw [setConfig_spec]
    by_cases h : some (mergeConfig { area := "kitchen" }) = s._config
    · simp [h]
    · simp [h]
  all_goals intro config
  · intro h; simp [mergeConfig, h]
  · intro h; simp [mergeConfig, h]
  · intro id h; simp [mergeConfig, h]
  · intro id h; simp [mergeConfig, h]

/-- Witness for C5: the kitchen defaults and an explicit override,
evaluated at concrete configurations. -/
theorem setConfig_sensor_defaults_witness :
    (setConfig { area := "kitchen" } freshCard).1._config =
      some (mergeConfig { area := "kitchen" }) ∧
    (mergeConfig { area := "kitchen" }).temperature_sensor =
      "sensor.kitchen_climate_air_temperature" ∧
    (mergeConfig
        { area := "kitchen", temperature_sensor := some "sensor.x" }
      ).temperature_sensor = "sensor.x" :=
  ⟨setConfig_sensor_defaults.1 freshCard,
   setConfig_sensor_defaults.2.1,
   setConfig_sensor_defaults.2.2.2.2.2.1 _ "sensor.x" rfl⟩

/-- C6: the merged configuration replaces the held one iff they are not
deeply equal, the re-render request fires exactly then, an equal merge is
a complete no-op, and a repeated identical configuration push has no
effect and requests no re-render. -/
theorem setConfig_equality_gated (config : Config) (s : CardState) :
    ((setConfig config s).1._config = some (mergeConfig config)) ∧
    ((setConfig config s).2 = true ↔ some (mergeConfig config) ≠ s._config) ∧
    (some (mergeConfig config) = s._config → setConfig config s = (s, false)) ∧
    (setConfig config (setConfig config s).1 = ((setConfig config s).1, false)) := by
  by_cases h : some (mergeConfig config) = s._config
  · simp [setConfig_spec, h]
  · simp [setConfig_spec, h]

/-- Witness for C6: a repeated identical kitchen configuration push is
free of effect on a concrete card. -/
theorem setConfig_equality_gated_witness :
    setConfig { area := "kitchen" }
        (setConfig { area := "kitchen" } freshCard).1 =
      ((setConfig { area := "kitchen" } freshCard).1, false) :=
  (setConfig_equality_gated { area := "kitchen" } freshCard).2.2.2

/-- C7: with an empty problem list no badge renders; with a non-empty one
a badge renders whose icon carries the problem count, with the strong red
background when `_problemExists` and the weaker green one otherwise (in
particular count "1" for a single problem entity in either style). -/
theorem problem_badge_rendering (s : CardState) :
    (s._problemEntities = [] → _renderProblemIndicator s = none) ∧
    (s._problemEntities ≠ [] →
      _renderProblemIndicator s = some
        { icon := s!"mdi:numeric-{s._problemEntities.length}"
          cssClass := "status-entities"
          background :=
            if s._problemExists then "rgba(var(--color-red), 0.8)"
            else "rgba(var(--color-green), 0.6)" }) ∧
    (s._problemEntities.length = 1 → s._problemExists = true →
      _renderProblemIndicator s =
        some { icon := "mdi:numeric-1", cssClass := "status-entities",
               background := "rgba(var(--color-red), 0.8)" }) ∧
    (s._problemEntities.length = 1 → s._problemExists = false →
      _renderProblemIndicator s =
        some { icon := "mdi:numeric-1", cssClass := "status-entities",
               background := "rgba(var(--color-green), 0.6)" }) := by
  refine ⟨fun h => by simp [_renderProblemIndicator, h], ?_, ?_, ?_⟩
  · intro h
    have h0 : s._problemEntities.length ≠ 0 := by
      simpa [List.length_eq_zero] using h
    simp [_renderProblemIndicator, h0]
  · intro hlen hex
    have h0 : s._problemEntities.length ≠ 0 := by omega
    simp [_renderProblemIndicator, h0, hlen, hex]
    rfl
  · intro hlen hex
    have h0 : s._problemEntities.length ≠ 0 := by omega
    simp [_renderProblemIndicator, h0, hlen, hex]
    rfl

/-- Witness for C7: the three badge behaviors at concrete problem lists. -/
theorem problem_badge_rendering_witness :
    _renderProblemIndicator { _problemEntities := [] } = none ∧
    _renderProblemIndicator
        { _problemEntities := ["binary_sensor.kitchen_leak"],
          _problemExists := true } =
      some { icon := "mdi:numeric-1", cssClass := "status-entities",
             background := "rgba(var(--color-red), 0.8)" } ∧
    _renderProblemIndicator
        { _problemEntities := ["binary_sensor.kitchen_leak"],
          _problemExists := false } =
      some { icon := "mdi:numeric-1", cssClass := "status-entities",
             background := "rgba(var(--color-green), 0.6)" } :=
  ⟨(problem_badge_rendering _).1 rfl,
   (problem_badge_rendering _).2.2.1 rfl rfl,
   (problem_badge_rendering _).2.2.2 rfl rfl⟩

/-- C8: with the temperature unit left at its default and the configured
sensors' live states "21.5" and "40", the climate label renders exactly
"21.5°C - 40%". -/
theorem climate_label_format (s : CardState) (hass : HomeAssistant)
    (config : MergedConfig) (hh : s._hass = some hass)
    (hc : s._config = some config) (ha : ¬ config.area = "")
    (hu : config.unit = none)
    (ht : getState hass config.temperature_sensor = some ⟨"21.5"⟩)
    (hm : getState hass config.humidity_sensor = some ⟨"40"⟩) :
    _getLabel s = .ok "21.5°C - 40%" := by
  obtain ⟨cfg, st, re, pe, pex, hs⟩ := s
  simp only [CardState.mk.injEq] at hh hc
  subst hh; subst hc
  simp [_getLabel, ha, ht, hm, hu, jsInterp, jsOr]
  rfl

/-- Witness for C8 at the concrete kitchen card and snapshot. -/
theorem climate_label_format_witness :
    _getLabel { _config := some kitchenConfig,
                _hass := some kitchenSnapshot } = .ok "21.5°C - 40%" :=
  climate_label_format _ kitchenSnapshot kitchenConfig rfl rfl
    (by decide) rfl rfl rfl

/-- C4 counterexample: with the temperature sensor's live state missing,
the label is not blank text — the missing datum renders as the literal
text "undefined" inside the label. -/
theorem missing_sensor_label_not_blank :
    getState kitchenSnapshotNoTemp kitchenConfig.temperature_sensor = none ∧
    _getLabel { _config := some kitchenConfig,
                _hass := some kitchenSnapshotNoTemp } =
      .ok "undefined°C - 40%" ∧
    ("undefined°C - 40%" : String) ≠ "" ∧
    ("undefined°C - 40%" : String) ≠ "°C - 40%" := by
  refine ⟨rfl, rfl, ?_, ?_⟩ <;> decide

/-- C4 amended: whichever configured sensor has no live state, the label
computation recovers locally — it still succeeds (no error is propagated,
rendering cannot crash on it, and no error message is produced) but the
missing datum appears as the literal text "undefined", not as blank
text.  Both branches together cover every state in which the temperature
or the humidity sensor (or both) has no live state. -/
theorem missing_sensor_recovers_locally (s : CardState)
    (hass : HomeAssistant) (config : MergedConfig)
    (hh : s._hass = some hass) (hc : s._config = some config)
    (ha : ¬ config.area = "") :
    (getState hass config.temperature_sensor = none →
      _getLabel s = .ok ("undefined°" ++ strToUpper (jsOr config.unit "C") ++
        " - " ++ jsInterp ((getState hass config.humidity_sensor).map
          LiveState.state) ++ "%")) ∧
    (getState hass config.humidity_sensor = none →
      _getLabel s = .ok (jsInterp ((getState hass
          config.temperature_sensor).map LiveState.state) ++ "°" ++
        strToUpper (jsOr config.unit "C") ++ " - " ++ "undefined" ++ "%")) := by
  obtain ⟨cfg, st, re, pe, pex, hs⟩ := s
  simp only [CardState.mk.injEq] at hh hc
  subst hh; subst hc
  constructor
  · intro ht
    simp [_getLabel, ha, ht, jsInterp]
    rfl
  · intro hm
    simp [_getLabel, ha, hm, jsInterp]
    rfl

/-- Witness for C4's amended claim: both missing-sensor branches at
concrete kitchen cards. -/
theorem missing_sensor_recovers_locally_witness :
    (_getLabel { _config := some kitchenConfig,
                 _hass := some kitchenSnapshotNoTemp } =
      .ok ("undefined°" ++ strToUpper (jsOr kitchenConfig.unit "C") ++
        " - " ++ jsInterp ((getState kitchenSnapshotNoTemp
          kitchenConfig.humidity_sensor).map LiveState.state) ++ "%")) ∧
    (_getLabel { _config := some kitchenConfig,
                 _hass := some kitchenSnapshotNoHum } =
      .ok (jsInterp ((getState kitchenSnapshotNoHum
          kitchenConfig.temperature_sensor).map LiveState.state) ++ "°" ++
        strToUpper (jsOr kitchenConfig.unit "C") ++ " - " ++ "undefined" ++
        "%")) :=
  ⟨(missing_sensor_recovers_locally _ kitchenSnapshotNoTemp kitchenConfig
      rfl rfl (by decide)).1 rfl,
   (missing_sensor_recovers_locally _ kitchenSnapshotNoHum kitchenConfig
      rfl rfl (by decide)).2 rfl⟩

/-- The 1-based positional class string, with the interpolation spelled
out as an append. -/
theorem entity_class_string (n : Nat) :
    s!"entity-{n}" = "entity-" ++ toString n := by
  show "entity-" ++ (toString n ++ "") = "entity-" ++ toString n
  rw [String.append_empty]

/-- The icon row holds exactly the entities of the held list, in order. -/
theorem renderStateIcons_entities (l : List EntityInformation) :
    (renderStateIcons l).map IconCell.entity = l := by
  simp only [renderStateIcons, List.map_map]
  have : (IconCell.entity ∘ fun p : Nat × EntityInformation =>
      ({ entity := p.2, classes := ["entity", s!"entity-{p.1 + 1}"] } :
        IconCell)) = Prod.snd := by
    funext p
    rfl
  rw [this, List.enum_map_snd]

/-- The icon row has one cell per held entity. -/
theorem renderStateIcons_length (l : List EntityInformation) :
    (renderStateIcons l).length = l.length := by
  simp [renderStateIcons]

/-- The i-th icon cell carries the positional class "entity-(i+1)". -/
theorem renderStateIcons_classes (l : List EntityInformation) (i : Nat)
    (h : i < (renderStateIcons l).length) :
    ((renderStateIcons l).get ⟨i, h⟩).classes =
      ["entity", "entity-" ++ toString (i + 1)] := by
  have h' : i < l.enum.length := by
    simpa [renderStateIcons] using h
  simp only [renderStateIcons, List.get_eq_getElem, List.getElem_map,
    List.getElem_enum]
  rw [entity_class_string]

/-- C9: the rendered output contains one icon cell per held entity, in
the same order as the held list (hence permuting the configured order
permutes the rendered order identically), and the i-th cell carries the
1-based positional class "entity-(i+1)". -/
theorem icon_cells_configured_order (s : CardState)
    (sts : List EntityInformation) (out : RenderOutput)
    (hs : s._states = some sts) (hr : render s = some out) :
    out.icons.map IconCell.entity = sts ∧
    out.icons.length = sts.length ∧
    ∀ (i : Nat) (h : i < out.icons.length),
      (out.icons.get ⟨i, h⟩).classes =
        ["entity", "entity-" ++ toString (i + 1)] := by
  obtain ⟨cfg, st, re, pe, pex, hass⟩ := s
  simp only [CardState.mk.injEq] at hs
  subst hs
  cases re with
  | none => simp [render] at hr
  | some re =>
    cases hass with
    | none => simp [render] at hr
    | some hass =>
      cases cfg with
      | none => simp [render] at hr
      | some config =>
        simp only [render] at hr
        obtain rfl : out = _ := (Option.some.inj hr).symm
        exact ⟨renderStateIcons_entities sts, renderStateIcons_length sts,
          fun i h => renderStateIcons_classes sts i h⟩

/-- Witness for C9 at a concrete two-entity card. -/
theorem icon_cells_configured_order_witness :
    ∃ out, render twoIconCard = some out ∧
      out.icons.map IconCell.entity =
        [{ entity_id := "a" }, { entity_id := "b" }] ∧
      out.icons.length = 2 ∧
      ∀ (i : Nat) (h : i < out.icons.length),
        (out.icons.get ⟨i, h⟩).classes =
          ["entity", "entity-" ++ toString (i + 1)] := by
  refine ⟨_, rfl, ?_, ?_, ?_⟩
  · exact (icon_cells_configured_order twoIconCard _ _ rfl rfl).1
  · exact (icon_cells_configured_order twoIconCard _ _ rfl rfl).2.1
  · exact (icon_cells_configured_order twoIconCard _ _ rfl rfl).2.2

/-- C10 counterexample: a label configured as the empty string is set but
is not displayed verbatim — the truthiness test in `render` falls back to
the formatted area name. -/
theorem empty_label_not_verbatim :
    (mergeConfig { area := "living_room", label := some "" }).label =
      some "" ∧
    (∃ out, render livingCardEmptyLabel = some out ∧
      out.areaName = "Living Room" ∧ ¬ out.areaName = "") := by
  refine ⟨rfl, _, rfl, rfl, by decide⟩

/-- C10 amended: with `label` unset, the displayed room name is the area
id split on '_', each word's first character uppercased, joined by single
spaces; a label set to a non-empty string is displayed verbatim; a label
set to the empty string falls back to the formatted area name. -/
theorem room_name_display (s : CardState) (config : MergedConfig)
    (out : RenderOutput) (hc : s._config = some config)
    (hr : render s = some out) :
    (config.label = none →
      out.areaName = String.mk (List.intercalate [' ']
        ((jsSplit '_' config.area.data).map capitalizeWord))) ∧
    (∀ l, config.label = some l → ¬ l = "" → out.areaName = l) ∧
    (config.label = some "" →
      out.areaName = String.mk (List.intercalate [' ']
        ((jsSplit '_' config.area.data).map capitalizeWord))) := by
  obtain ⟨cfg, st, re, pe, pex, hass⟩ := s
  simp only [CardState.mk.injEq] at hc
  subst hc
  cases st with
  | none => simp [render] at hr
  | some sts =>
    cases re with
    | none => simp [render] at hr
    | some re =>
      cases hass with
      | none => simp [render] at hr
      | some hass =>
        simp only [render] at hr
        obtain rfl : out = _ := (Option.some.inj hr).symm
        refine ⟨?_, ?_, ?_⟩
        · intro h
          simp [areaNameOf, _formatAreaName, h]
        · intro l h hne
          simp [areaNameOf, _formatAreaName, h, hne]
        · intro h
          simp [areaNameOf, _formatAreaName, h]

/-- Witness for C10's amended claim: the living-room card with no label
displays "Living Room". -/
theorem room_name_display_witness :
    ∃ out, render livingCard = some out ∧ out.areaName = "Living Room" := by
  refine ⟨_, rfl, ?_⟩
  have h := (room_name_display livingCard
    (mergeConfig { area := "living_room" }) _ rfl rfl).1 rfl
  rw [h]
  decide

end RoomSummaryCard
